import Mathlib

/-!
Shallow embedding of the ping-pong Flask service (src/src/main.py).

JSON values decoded by request.get_json are modelled by the inductive
type Json.  JSON numbers are modelled as integers: no claim involves
fractional numbers and floating point is out of scope.  A request body
that fails to parse (missing or wrong content type, malformed JSON,
absent body) is modelled as none, since Flask raises there and the
handlers catch the exception.  Python operations that can raise are
modelled with Except.  The current time is passed as an explicit
DateTime argument, since handlers read it fresh on every call.
-/

namespace PingPong

inductive Json where
  | null : Json
  | bool (b : Bool) : Json
  | num (n : Int) : Json
  | str (s : String) : Json
  | arr (xs : List Json) : Json
  | obj (kvs : List (String × Json)) : Json
deriving Repr

mutual

/-- Structural equality of JSON values, modelling Python == between
JSON-decoded values of the same shape (the only comparisons the
handlers perform compare against a string, where Python == agrees with
structural equality). -/
def Json.beq : Json → Json → Bool
  | Json.null, Json.null => true
  | Json.bool a, Json.bool b => a == b
  | Json.num a, Json.num b => a == b
  | Json.str a, Json.str b => a == b
  | Json.arr xs, Json.arr ys => Json.beqList xs ys
  | Json.obj xs, Json.obj ys => Json.beqKVList xs ys
  | _, _ => false

def Json.beqList : List Json → List Json → Bool
  | [], [] => true
  | x :: xs, y :: ys => Json.beq x y && Json.beqList xs ys
  | _, _ => false

def Json.beqKVList : List (String × Json) → List (String × Json) → Bool
  | [], [] => true
  | (k, v) :: xs, (l, w) :: ys => k == l && Json.beq v w && Json.beqKVList xs ys
  | _, _ => false

end

instance : BEq Json := ⟨Json.beq⟩

/-- Python truthiness of a JSON-decoded value, as tested by `not data`:
None, False, 0, empty string, empty list and empty dict are falsy. -/
def truthy : Json → Bool
  | Json.null => false
  | Json.bool b => b
  | Json.num n => n != 0
  | Json.str s => s != ""
  | Json.arr xs => !xs.isEmpty
  | Json.obj kvs => !kvs.isEmpty

/-- Substring test, modelling Python `key in s` for strings. -/
def pyInStr (needle hay : String) : Bool :=
  decide (needle.toList <:+: hay.toList)

/-- Python membership `key in data` on a JSON-decoded value: key lookup
for dicts, element equality for lists, substring test for strings;
raises TypeError (modelled as error) for None, booleans and numbers. -/
def pyContains (key : String) : Json → Except String Bool
  | Json.obj kvs => Except.ok (kvs.any (fun kv => kv.1 == key))
  | Json.arr xs => Except.ok (xs.any (fun x => x == Json.str key))
  | Json.str s => Except.ok (pyInStr key s)
  | _ => Except.error "TypeError"

/-- True for the JSON values that support the Python membership test
`key in data` (dicts, lists and strings); membership on None, booleans
and numbers raises TypeError. -/
def isContainer : Json → Bool
  | Json.str _ => true
  | Json.arr _ => true
  | Json.obj _ => true
  | _ => false

/-- Python subscription `data[key]` with a string key: value lookup for
dicts (KeyError when absent); raises TypeError for strings, lists and
everything else, since string indices are invalid there. -/
def pySubscript (key : String) : Json → Except String Json
  | Json.obj kvs =>
      match kvs.find? (fun kv => kv.1 == key) with
      | some kv => Except.ok kv.2
      | none => Except.error "KeyError"
  | _ => Except.error "TypeError"

mutual

/-- Python str() of a JSON-decoded value, as interpolated by the
f-string in the hello handler.  For lists and dicts Python uses repr of
the elements; repr of a string is modelled as the string wrapped in
single quotes (escaping of special characters inside it is not
modelled, no claim depends on it). -/
def pyStr : Json → String
  | Json.null => "None"
  | Json.bool true => "True"
  | Json.bool false => "False"
  | Json.num n => toString n
  | Json.str s => s
  | Json.arr xs => "[" ++ pyReprList xs ++ "]"
  | Json.obj kvs => "\x7b" ++ pyReprKVList kvs ++ "\x7d"

/-- Python repr() of a JSON-decoded value, used for container members. -/
def pyReprMem : Json → String
  | Json.null => "None"
  | Json.bool true => "True"
  | Json.bool false => "False"
  | Json.num n => toString n
  | Json.str s => "\x27" ++ s ++ "\x27"
  | Json.arr xs => "[" ++ pyReprList xs ++ "]"
  | Json.obj kvs => "\x7b" ++ pyReprKVList kvs ++ "\x7d"

/-- Comma-joined repr of list members. -/
def pyReprList : List Json → String
  | [] => ""
  | [x] => pyReprMem x
  | x :: xs => pyReprMem x ++ ", " ++ pyReprList xs

/-- Comma-joined repr of dict entries. -/
def pyReprKVList : List (String × Json) → String
  | [] => ""
  | [(k, v)] => "\x27" ++ k ++ "\x27: " ++ pyReprMem v
  | (k, v) :: xs => "\x27" ++ k ++ "\x27: " ++ pyReprMem v ++ ", " ++ pyReprKVList xs

end

/-- An HTTP response: status code and JSON body. -/
structure Response where
  status : Nat
  body : Json
deriving Repr

def missingNameBody : Json :=
  Json.obj [("error", Json.str "Missing \x27name\x27 field in JSON payload")]

def internalErrorBody : Json :=
  Json.obj [("error", Json.str "Internal server error")]

/-- The POST /hello handler.  `body` is none when request.get_json
raises (the whole handler body is wrapped in try/except, every raise
becomes the 500 response).  `ts` is the formatted current time. -/
def hello (body : Option Json) (ts : String) : Response :=
  match body with
  | none => ⟨500, internalErrorBody⟩
  | some data =>
    if truthy data = false then ⟨400, missingNameBody⟩
    else
      match pyContains "name" data with
      | Except.error _ => ⟨500, internalErrorBody⟩
      | Except.ok b =>
        if b = false then ⟨400, missingNameBody⟩
        else
          match pySubscript "name" data with
          | Except.error _ => ⟨500, internalErrorBody⟩
          | Except.ok v =>
            ⟨200, Json.obj [("message",
              Json.str ("Hello " ++ pyStr v ++ ", current time is " ++ ts))]⟩

/-- A point in time as produced by datetime.now().  The valid predicate
below records the ranges Python datetime guarantees for its fields. -/
structure DateTime where
  year : Nat
  month : Nat
  day : Nat
  hour : Nat
  minute : Nat
  second : Nat
deriving Repr

/-- The field ranges guaranteed by Python datetime (MINYEAR 1,
MAXYEAR 9999, and the usual calendar bounds). -/
def DateTime.valid (dt : DateTime) : Prop :=
  1 ≤ dt.year ∧ dt.year ≤ 9999 ∧ 1 ≤ dt.month ∧ dt.month ≤ 12 ∧
  1 ≤ dt.day ∧ dt.day ≤ 31 ∧ dt.hour ≤ 23 ∧ dt.minute ≤ 59 ∧ dt.second ≤ 59

instance (dt : DateTime) : Decidable dt.valid := by
  unfold DateTime.valid
  infer_instance

/-- The decimal digit character for n mod 10. -/
def digitChar10 (n : Nat) : Char := Char.ofNat (48 + n % 10)

/-- Two-digit zero-padded decimal, the output of the %m %d %H %M %S
directives.  Fixed width is the strftime output for the in-range values
datetime carries; fields above 99 never occur. -/
def pad2 (n : Nat) : String := String.mk [digitChar10 (n / 10), digitChar10 n]

/-- Four-digit zero-padded decimal, the output of %Y for years up to
MAXYEAR 9999. -/
def pad4 (n : Nat) : String :=
  String.mk [digitChar10 (n / 1000), digitChar10 (n / 100), digitChar10 (n / 10),
    digitChar10 n]

/-- datetime.now().strftime of the format used throughout main.py:
year-month-day space hour:minute:second space UTC. -/
def strftime (dt : DateTime) : String :=
  pad4 dt.year ++ "-" ++ pad2 dt.month ++ "-" ++ pad2 dt.day ++ " " ++
  pad2 dt.hour ++ ":" ++ pad2 dt.minute ++ ":" ++ pad2 dt.second ++ " UTC"

/-- The character-level shape of YYYY-MM-DD HH:MM:SS UTC: 23
characters, digits in the date and time positions, the literal
separators and the literal UTC suffix. -/
def timestampShape : List Char → Bool
  | [y1, y2, y3, y4, c1, m1, m2, c2, d1, d2, c3, h1, h2, c4, n1, n2, c5, s1, s2,
     c6, u1, u2, u3] =>
      y1.isDigit && y2.isDigit && y3.isDigit && y4.isDigit &&
      m1.isDigit && m2.isDigit && d1.isDigit && d2.isDigit &&
      h1.isDigit && h2.isDigit && n1.isDigit && n2.isDigit &&
      s1.isDigit && s2.isDigit &&
      c1 == Char.ofNat 45 && c2 == Char.ofNat 45 && c3 == Char.ofNat 32 &&
      c4 == Char.ofNat 58 && c5 == Char.ofNat 58 && c6 == Char.ofNat 32 &&
      u1 == Char.ofNat 85 && u2 == Char.ofNat 84 && u3 == Char.ofNat 67
  | _ => false

/-- Checks that a string matches the pattern YYYY-MM-DD HH:MM:SS UTC. -/
def matchesTimestampPattern (s : String) : Bool := timestampShape s.toList

/-- The GET /ping handler: a constant response, no inputs, no state. -/
def ping : Response := ⟨200, Json.obj [("message", Json.str "pong")]⟩

/-- The GET /health handler.  Builds the health payload from the fresh
current time and the configured application name; the version string is
fixed.  Field order follows the source dict literal. -/
def health (dt : DateTime) (appName : String) : Response :=
  ⟨200, Json.obj
    [("status", Json.str "healthy"),
     ("timestamp", Json.str (strftime dt)),
     ("service", Json.str appName),
     ("version", Json.str "1.0.0")]⟩

/-- What a Python handler returns: either a response object (possibly
with an explicit status) or a bare value that is not a response, such
as the raw integers in the iseven handler. -/
inductive PyRet where
  | resp (r : Response) : PyRet
  | intLit (n : Int) : PyRet
deriving Repr

/-- `number % 2 == 0` on a JSON-decoded value.  Integers use Python
modulo (nonnegative remainder, matching Int.emod).  Booleans are
Python ints (True is 1).  All other values raise TypeError.  Not
modelled: printf-style formatting that `str % int` performs when the
string contains a format specifier; for strings without one it raises,
as modelled here. -/
def pyEvenCheck : Json → Except String Bool
  | Json.num n => Except.ok (n % 2 == 0)
  | Json.bool b => Except.ok (!b)
  | _ => Except.error "TypeError"

/-- The POST /iseven handler, read with the except clause aligned to
its try block (as written the source misindents it, see the indentation
constants below).  Returns bare Python ints 200 and 400 on the success
paths instead of response objects. -/
def iseven (body : Option Json) : PyRet :=
  match body with
  | none => PyRet.resp ⟨500, internalErrorBody⟩
  | some data =>
    match pySubscript "number" data with
    | Except.error _ => PyRet.resp ⟨500, internalErrorBody⟩
    | Except.ok v =>
      match pyEvenCheck v with
      | Except.error _ => PyRet.resp ⟨500, internalErrorBody⟩
      | Except.ok true => PyRet.intLit 200
      | Except.ok false => PyRet.intLit 400

/-- Indentation column of the `try:` line inside the iseven handler in
src/src/main.py (line 45), counted in leading spaces. -/
def isevenTryIndent : Nat := 8

/-- Indentation column of the `except` line inside the iseven handler
in src/src/main.py (line 53).  Python requires an except clause to sit
at the same column as its try, so the mismatch with isevenTryIndent
makes the file a SyntaxError and the module fails to load. -/
def isevenExceptIndent : Nat := 10

inductive Method where
  | GET : Method
  | POST : Method
deriving Repr, DecidableEq

/-- The route table registered by create_app, in source order.  The
source registers five routes: the four documented ones plus
POST /iseven. -/
def routes : List (Method × String) :=
  [(Method.GET, "/"), (Method.GET, "/ping"), (Method.POST, "/iseven"),
   (Method.POST, "/hello"), (Method.GET, "/health")]

/-- What the framework sends back for a request: rendered HTML (the
home page with the interpolated application name and time), a JSON
response, a bare non-response value returned by a handler, which the
framework rejects, or a framework-level error response. -/
inductive RouteResult where
  | html (appName ts : String) : RouteResult
  | api (r : Response) : RouteResult
  | bare (n : Int) : RouteResult
deriving Repr

/-- Modelled from the spec: unmatched paths are handled by the
framework, which the spec states responds 404 with a JSON error body
(the framework itself is outside src/). -/
def notFoundResponse : Response := ⟨404, Json.obj [("error", Json.str "Not Found")]⟩

/-- Modelled from the spec: a registered path hit with the wrong method
gets the framework default 405 response. -/
def methodNotAllowedResponse : Response :=
  ⟨405, Json.obj [("error", Json.str "Method Not Allowed")]⟩

/-- Dispatch of one request: method and path are matched against the
registered routes, the matching handler runs with the parsed body and
the current time, and unmatched requests fall through to the framework
defaults.  Handlers share no state: each call depends only on its own
arguments. -/
def dispatch (m : Method) (path : String) (body : Option Json) (dt : DateTime)
    (appName : String) : RouteResult :=
  if m = Method.GET ∧ path = "/" then RouteResult.html appName (strftime dt)
  else if m = Method.GET ∧ path = "/ping" then RouteResult.api ping
  else if m = Method.POST ∧ path = "/iseven" then
    match iseven body with
    | PyRet.resp r => RouteResult.api r
    | PyRet.intLit n => RouteResult.bare n
  else if m = Method.POST ∧ path = "/hello" then
    RouteResult.api (hello body (strftime dt))
  else if m = Method.GET ∧ path = "/health" then
    RouteResult.api (health dt appName)
  else if routes.any (fun r => r.2 == path) then
    RouteResult.api methodNotAllowedResponse
  else RouteResult.api notFoundResponse

/-- Python str.lower restricted to what "False".lower() and the like
need: ASCII lowercasing character by character. -/
def pyLower (s : String) : String := String.mk (s.data.map Char.toLower)

/-- Python int() applied to a string: optional sign followed by one or
more decimal digits (surrounding whitespace and underscore separators
are not modelled; no claim exercises them).  none models the ValueError
raise. -/
def pyIntOfString (s : String) : Option Int :=
  match s.toList with
  | [] => none
  | c :: rest =>
    let digits := fun (cs : List Char) =>
      if cs = [] then (none : Option Nat)
      else if cs.all Char.isDigit then
        some (cs.foldl (fun acc c => acc * 10 + (c.toNat - 48)) 0)
      else none
    if c == Char.ofNat 45 then (digits rest).map (fun n => -(n : Int))
    else if c == Char.ofNat 43 then (digits rest).map (fun n => (n : Int))
    else (digits (c :: rest)).map (fun n => (n : Int))

/-- PORT: int(os.environ.get("PORT", 5000)).  With the variable absent
the default is already an int, so int() is the identity; with it
present int() parses the string and can raise, hence the Option. -/
def PORT_of (env : String → Option String) : Option Int :=
  match env "PORT" with
  | none => some 5000
  | some s => pyIntOfString s

/-- HOST: os.environ.get("HOST", "0.0.0.0"). -/
def HOST_of (env : String → Option String) : String :=
  (env "HOST").getD "0.0.0.0"

/-- DEBUG: os.environ.get("DEBUG", "False").lower() == "true". -/
def DEBUG_of (env : String → Option String) : Bool :=
  pyLower ((env "DEBUG").getD "False") == "true"

/-- APP_NAME: os.environ.get("APP_NAME", "ping-pong"). -/
def APP_NAME_of (env : String → Option String) : String :=
  (env "APP_NAME").getD "ping-pong"

/-- A fixed sample instant used to evaluate the model on concrete
requests. -/
def dt0 : DateTime := ⟨2024, 1, 1, 0, 0, 0⟩

/-- The four routes named by the routing table of the spec, for
comparison with the route table the source actually registers. -/
def claimedRoutes : List (Method × String) :=
  [(Method.GET, "/"), (Method.GET, "/ping"), (Method.POST, "/hello"),
   (Method.GET, "/health")]

/-! Helper lemmas shared by the claim theorems. -/

/-- A parse failure reaches the except clause and yields the 500
response. -/
theorem hello_none (ts : String) : hello none ts = ⟨500, internalErrorBody⟩ := rfl

/-- A falsy parsed body takes the 400 branch. -/
theorem hello_falsy (data : Json) (ts : String) (h : truthy data = false) :
    hello (some data) ts = ⟨400, missingNameBody⟩ := by
  simp [hello, h]

/-- An object body with no "name" key takes the 400 branch. -/
theorem hello_obj_without_name (kvs : List (String × Json)) (ts : String)
    (h : kvs.any (fun kv => kv.1 == "name") = false) :
    hello (some (Json.obj kvs)) ts = ⟨400, missingNameBody⟩ := by
  cases kvs with
  | nil => rfl
  | cons kv l =>
    simp only [hello, truthy, pyContains, List.isEmpty_cons, Bool.not_false, h]
    rfl

/-- An object body whose "name" lookup succeeds takes the 200 branch
and interpolates str() of the found value. -/
theorem hello_obj_found (kvs : List (String × Json)) (ts : String)
    (p : String × Json) (h : kvs.find? (fun kv => kv.1 == "name") = some p) :
    hello (some (Json.obj kvs)) ts =
      ⟨200, Json.obj [("message",
        Json.str ("Hello " ++ pyStr p.2 ++ ", current time is " ++ ts))]⟩ := by
  have hmem := List.mem_of_find?_eq_some h
  have hpred := List.find?_some h
  have hany : kvs.any (fun kv => kv.1 == "name") = true :=
    List.any_eq_true.mpr ⟨p, hmem, hpred⟩
  cases kvs with
  | nil => simp at hmem
  | cons kv l =>
    simp only [hello, truthy, pyContains, pySubscript, List.isEmpty_cons,
      Bool.not_false, hany, h]
    rfl

/-- Every run of the hello handler ends in one of three responses: the
400 missing-name response, the 500 internal-error response, or the 200
greeting for an object whose "name" lookup succeeded. -/
theorem hello_cases (data : Json) (ts : String) :
    hello (some data) ts = ⟨400, missingNameBody⟩ ∨
    hello (some data) ts = ⟨500, internalErrorBody⟩ ∨
    ∃ kvs p, data = Json.obj kvs ∧
      kvs.find? (fun kv => kv.1 == "name") = some p ∧
      hello (some data) ts = ⟨200, Json.obj [("message",
        Json.str ("Hello " ++ pyStr p.2 ++ ", current time is " ++ ts))]⟩ := by
  cases data with
  | null => exact Or.inl rfl
  | bool b =>
    cases b with
    | false => exact Or.inl rfl
    | true => exact Or.inr (Or.inl rfl)
  | num n =>
    by_cases hn : n = 0
    · exact Or.inl (hello_falsy _ _ (by simp [truthy, hn]))
    · refine Or.inr (Or.inl ?_)
      simp [hello, truthy, hn, pyContains]
  | str s =>
    by_cases hs : s = ""
    · exact Or.inl (hello_falsy _ _ (by simp [truthy, hs]))
    · by_cases hb : pyInStr "name" s = true
      · refine Or.inr (Or.inl ?_)
        simp [hello, truthy, hs, pyContains, pySubscript, hb]
      · refine Or.inl ?_
        simp [hello, truthy, hs, pyContains, pySubscript,
          Bool.eq_false_iff.mpr hb]
  | arr xs =>
    cases xs with
    | nil => exact Or.inl rfl
    | cons x l =>
      by_cases hb : (x :: l).any (fun y => y == Json.str "name") = true
      · refine Or.inr (Or.inl ?_)
        simp [hello, truthy, pyContains, pySubscript, hb]
      · refine Or.inl ?_
        simp [hello, truthy, pyContains, pySubscript, Bool.eq_false_iff.mpr hb]
  | obj kvs =>
    by_cases hb : kvs.any (fun kv => kv.1 == "name") = true
    · have hsome : (kvs.find? (fun kv => kv.1 == "name")).isSome := by
        rw [List.find?_isSome]
        exact List.any_eq_true.mp hb
      obtain ⟨q, hq⟩ := Option.isSome_iff_exists.mp hsome
      exact Or.inr (Or.inr ⟨kvs, q, rfl, hq, hello_obj_found kvs ts q hq⟩)
    · exact Or.inl (hello_obj_without_name kvs ts (Bool.eq_false_iff.mpr hb))

/-- Substring witness: a middle piece is a substring of the
concatenation around it. -/
theorem pyInStr_parts (pre mid post hay : String)
    (h : pre.data ++ mid.data ++ post.data = hay.data) : pyInStr mid hay = true := by
  unfold pyInStr
  rw [decide_eq_true_eq]
  exact ⟨pre.data, post.data, h⟩

/-- Every digit character produced by digitChar10 is a decimal digit. -/
theorem digitChar10_isDigit (n : Nat) : (digitChar10 n).isDigit = true := by
  unfold digitChar10
  have h : n % 10 < 10 := Nat.mod_lt _ (by norm_num)
  set r := n % 10 with hr
  interval_cases r <;> rfl

/-- The character list of a formatted timestamp, spelled out. -/
theorem strftime_data (dt : DateTime) :
    (strftime dt).data =
      [digitChar10 (dt.year / 1000), digitChar10 (dt.year / 100),
       digitChar10 (dt.year / 10), digitChar10 dt.year, Char.ofNat 45,
       digitChar10 (dt.month / 10), digitChar10 dt.month, Char.ofNat 45,
       digitChar10 (dt.day / 10), digitChar10 dt.day, Char.ofNat 32,
       digitChar10 (dt.hour / 10), digitChar10 dt.hour, Char.ofNat 58,
       digitChar10 (dt.minute / 10), digitChar10 dt.minute, Char.ofNat 58,
       digitChar10 (dt.second / 10), digitChar10 dt.second, Char.ofNat 32,
       Char.ofNat 85, Char.ofNat 84, Char.ofNat 67] := by
  simp only [strftime, pad4, pad2, String.data_append]
  rfl

/-- A formatted timestamp always matches the spec pattern. -/
theorem strftime_matches (dt : DateTime) :
    matchesTimestampPattern (strftime dt) = true := by
  unfold matchesTimestampPattern
  rw [String.toList, strftime_data]
  simp [timestampShape, digitChar10_isDigit]

/-! Claim theorems. -/

/-- C1: a body parsing to a non-empty JSON object containing the key
"name" gets status 200 and body message "Hello <name>, current time is
<timestamp>"; the message contains the literal name value (via Python
str) and the substring "current time is". -/
theorem hello_ok_response (kvs : List (String × Json)) (ts : String)
    (p : String × Json) (h : kvs.find? (fun kv => kv.1 == "name") = some p) :
    hello (some (Json.obj kvs)) ts =
      ⟨200, Json.obj [("message",
        Json.str ("Hello " ++ pyStr p.2 ++ ", current time is " ++ ts))]⟩ ∧
    pyInStr (pyStr p.2)
      ("Hello " ++ pyStr p.2 ++ ", current time is " ++ ts) = true ∧
    pyInStr "current time is"
      ("Hello " ++ pyStr p.2 ++ ", current time is " ++ ts) = true := by
  refine ⟨hello_obj_found kvs ts p h, ?_, ?_⟩
  · apply pyInStr_parts "Hello " _ (", current time is " ++ ts)
    simp [String.data_append]
  · apply pyInStr_parts ("Hello " ++ pyStr p.2 ++ ", ") _ (" " ++ ts)
    have hlit : ∀ t : List Char,
        (", ").data ++ (("current time is").data ++ ((" ").data ++ t)) =
          (", current time is ").data ++ t := fun t => rfl
    simp [String.data_append, hlit]

/-- C1 witness: the name Ada at a fixed timestamp. -/
theorem hello_ok_response_witness :
    hello (some (Json.obj [("name", Json.str "Ada")])) "2024-01-01 00:00:00 UTC" =
      ⟨200, Json.obj [("message",
        Json.str ("Hello " ++ pyStr (Json.str "Ada") ++ ", current time is " ++
          "2024-01-01 00:00:00 UTC"))]⟩ ∧
    pyInStr (pyStr (Json.str "Ada"))
      ("Hello " ++ pyStr (Json.str "Ada") ++ ", current time is " ++
        "2024-01-01 00:00:00 UTC") = true ∧
    pyInStr "current time is"
      ("Hello " ++ pyStr (Json.str "Ada") ++ ", current time is " ++
        "2024-01-01 00:00:00 UTC") = true :=
  hello_ok_response [("name", Json.str "Ada")] "2024-01-01 00:00:00 UTC"
    ("name", Json.str "Ada") rfl

/-- C2 counterexample: the JSON number 5 parses successfully and lacks
a "name" key (it has no keys at all), yet the handler answers with the
500 internal-error response rather than the 400 missing-field
response the claim requires. -/
theorem hello_scalar_body_not_400 :
    hello (some (Json.num 5)) "2024-01-01 00:00:00 UTC" =
      ⟨500, internalErrorBody⟩ ∧
    (hello (some (Json.num 5)) "2024-01-01 00:00:00 UTC").status ≠ 400 :=
  ⟨rfl, by decide⟩

/-- C2 amended: a body parsing to a falsy value (empty) or to a JSON
object lacking a "name" key gets status 400 with the exact
missing-field error body. -/
theorem hello_missing_name_400 (data : Json) (ts : String)
    (h : truthy data = false ∨
      ∃ kvs, data = Json.obj kvs ∧ kvs.any (fun kv => kv.1 == "name") = false) :
    hello (some data) ts = ⟨400, missingNameBody⟩ ∧
    missingNameBody =
      Json.obj [("error", Json.str "Missing \x27name\x27 field in JSON payload")] := by
  refine ⟨?_, rfl⟩
  rcases h with h | ⟨kvs, rfl, h⟩
  · exact hello_falsy data ts h
  · exact hello_obj_without_name kvs ts h

/-- C2 witness: the empty JSON object. -/
theorem hello_missing_name_400_witness :
    hello (some (Json.obj [])) "2024-01-01 00:00:00 UTC" =
      ⟨400, missingNameBody⟩ ∧
    missingNameBody =
      Json.obj [("error", Json.str "Missing \x27name\x27 field in JSON payload")] :=
  hello_missing_name_400 (Json.obj []) "2024-01-01 00:00:00 UTC" (Or.inl rfl)

/-- C3: a body that fails to parse is caught by the except clause and
answered 500 with the internal-error body, and the handler is total
with every response status among 200, 400 and 500: no error escapes
the handler boundary. -/
theorem hello_catches_all :
    (∀ ts, hello none ts = ⟨500, internalErrorBody⟩) ∧
    (∀ body ts, (hello body ts).status = 200 ∨ (hello body ts).status = 400 ∨
      (hello body ts).status = 500) := by
  refine ⟨fun ts => rfl, fun body ts => ?_⟩
  cases body with
  | none => exact Or.inr (Or.inr rfl)
  | some data =>
    rcases hello_cases data ts with h | h | ⟨kvs, p, hd, hf, h⟩
    · rw [h]; exact Or.inr (Or.inl rfl)
    · rw [h]; exact Or.inr (Or.inr rfl)
    · rw [h]; exact Or.inl rfl

/-- C4 counterexample: the body with "name" bound to null is greeted
with 200 "Hello None", not treated as a client error, refuting the
claimed non-null invariant. -/
theorem hello_null_name_greeted :
    hello (some (Json.obj [("name", Json.null)])) "2024-01-01 00:00:00 UTC" =
      ⟨200, Json.obj [("message",
        Json.str "Hello None, current time is 2024-01-01 00:00:00 UTC")]⟩ := rfl

/-- C4 amended: every 200 response comes from a JSON object body
containing the key "name" (whose value may be null or non-string, it
is interpolated via str), and an object body lacking "name" gets the
400 client error. -/
theorem hello_200_requires_name_key :
    (∀ data ts, (hello (some data) ts).status = 200 →
      ∃ kvs, data = Json.obj kvs ∧ kvs.any (fun kv => kv.1 == "name") = true) ∧
    (∀ kvs ts, kvs.any (fun kv => kv.1 == "name") = false →
      hello (some (Json.obj kvs)) ts = ⟨400, missingNameBody⟩) := by
  constructor
  · intro data ts h
    rcases hello_cases data ts with hc | hc | ⟨kvs, p, hd, hf, hc⟩
    · rw [hc] at h; exact absurd h (by decide)
    · rw [hc] at h; exact absurd h (by decide)
    · have hp := List.find?_some hf
      exact ⟨kvs, hd, List.any_eq_true.mpr
        ⟨p, List.mem_of_find?_eq_some hf, hp⟩⟩
  · exact fun kvs ts h => hello_obj_without_name kvs ts h

/-- C4 witness: a 200 response for the name Bob indeed comes from an
object containing the "name" key. -/
theorem hello_200_requires_name_key_witness :
    ∃ kvs, Json.obj [("name", Json.str "Bob")] = Json.obj kvs ∧
      kvs.any (fun kv => kv.1 == "name") = true :=
  hello_200_requires_name_key.1 (Json.obj [("name", Json.str "Bob")])
    "2024-01-01 00:00:00 UTC" rfl

/-- C5: the health handler always returns 200 with status "healthy",
version "1.0.0", the configured service name, and a timestamp
recomputed from the instant of the call and matching the pattern
YYYY-MM-DD HH:MM:SS UTC. -/
theorem health_always_healthy (dt : DateTime) (appName : String)
    (_h : dt.valid) :
    health dt appName = ⟨200, Json.obj
      [("status", Json.str "healthy"),
       ("timestamp", Json.str (strftime dt)),
       ("service", Json.str appName),
       ("version", Json.str "1.0.0")]⟩ ∧
    matchesTimestampPattern (strftime dt) = true :=
  ⟨rfl, strftime_matches dt⟩

/-- C5 witness: the sample instant with the default service name. -/
theorem health_always_healthy_witness :
    health dt0 "ping-pong" = ⟨200, Json.obj
      [("status", Json.str "healthy"),
       ("timestamp", Json.str (strftime dt0)),
       ("service", Json.str "ping-pong"),
       ("version", Json.str "1.0.0")]⟩ ∧
    matchesTimestampPattern (strftime dt0) = true :=
  health_always_healthy dt0 "ping-pong" (by decide)

/-- C6: /ping returns exactly message pong with status 200; dispatch
sends GET /ping there whatever the body, instant or configuration, and
the handler reads no state, so call order and repetition cannot change
the response. -/
theorem ping_always_pong :
    ping = ⟨200, Json.obj [("message", Json.str "pong")]⟩ ∧
    ∀ body dt appName,
      dispatch Method.GET "/ping" body dt appName = RouteResult.api ping :=
  ⟨rfl, fun _ _ _ => rfl⟩

/-- C7 counterexample: the source registers POST /iseven, a route
outside the four the claim allows, and dispatch serves it (here with
the 500 response for an absent body) instead of the 404 fallback. -/
theorem iseven_route_registered :
    (Method.POST, "/iseven") ∈ routes ∧
    (Method.POST, "/iseven") ∉ claimedRoutes ∧
    dispatch Method.POST "/iseven" none dt0 "ping-pong" =
      RouteResult.api ⟨500, internalErrorBody⟩ :=
  ⟨by decide, by decide, rfl⟩

/-- C7 amended: the router registers exactly five routes, the four
documented ones plus POST /iseven, and a request whose path matches no
registered route receives the framework 404 response with a JSON error
body. -/
theorem routes_five_and_404 :
    routes = [(Method.GET, "/"), (Method.GET, "/ping"), (Method.POST, "/iseven"),
      (Method.POST, "/hello"), (Method.GET, "/health")] ∧
    ∀ m path body dt appName,
      routes.any (fun r => r.2 == path) = false →
      dispatch m path body dt appName = RouteResult.api notFoundResponse ∧
      notFoundResponse = ⟨404, Json.obj [("error", Json.str "Not Found")]⟩ := by
  refine ⟨rfl, fun m path body dt appName h => ⟨?_, rfl⟩⟩
  have h' := h
  simp only [routes, List.any_cons, List.any_nil, Bool.or_eq_false_iff,
    beq_eq_false_iff_ne, ne_eq] at h'
  obtain ⟨h1, h2, h3, h4, h5, -⟩ := h'
  have hp1 : ¬ path = "/" := fun hh => h1 hh.symm
  have hp2 : ¬ path = "/ping" := fun hh => h2 hh.symm
  have hp3 : ¬ path = "/iseven" := fun hh => h3 hh.symm
  have hp4 : ¬ path = "/hello" := fun hh => h4 hh.symm
  have hp5 : ¬ path = "/health" := fun hh => h5 hh.symm
  simp [dispatch, hp1, hp2, hp3, hp4, hp5, h]

/-- C7 witness: an unknown path gets the 404 JSON fallback. -/
theorem routes_five_and_404_witness :
    dispatch Method.GET "/nonexistent" none dt0 "ping-pong" =
      RouteResult.api notFoundResponse ∧
    notFoundResponse = ⟨404, Json.obj [("error", Json.str "Not Found")]⟩ :=
  routes_five_and_404.2 Method.GET "/nonexistent" none dt0 "ping-pong" rfl

/-- C8: with all four environment variables absent the configuration
computes PORT 5000, HOST "0.0.0.0", DEBUG false and APP_NAME
"ping-pong"; the values are pure functions of the initial environment
read once at module load, with no mutation path. -/
theorem config_defaults (env : String → Option String)
    (hP : env "PORT" = none) (hH : env "HOST" = none)
    (hD : env "DEBUG" = none) (hA : env "APP_NAME" = none) :
    PORT_of env = some 5000 ∧ HOST_of env = "0.0.0.0" ∧
    DEBUG_of env = false ∧ APP_NAME_of env = "ping-pong" := by
  refine ⟨?_, ?_, ?_, ?_⟩
  · unfold PORT_of; rw [hP]
  · unfold HOST_of; rw [hH]; rfl
  · unfold DEBUG_of; rw [hD]; decide
  · unfold APP_NAME_of; rw [hA]; rfl

/-- C8 witness: the empty environment. -/
theorem config_defaults_witness :
    PORT_of (fun _ => none) = some 5000 ∧
    HOST_of (fun _ => none) = "0.0.0.0" ∧
    DEBUG_of (fun _ => none) = false ∧
    APP_NAME_of (fun _ => none) = "ping-pong" :=
  config_defaults (fun _ => none) rfl rfl rfl rfl

/-- C9: a truthy non-container body (for example the JSON number 5)
parses successfully, yet the membership test raises TypeError, so the
handler answers 500 internal error even though parsing succeeded. -/
theorem hello_truthy_scalar_500 (v : Json) (ts : String)
    (htr : truthy v = true) (hnc : isContainer v = false) :
    pyContains "name" v = Except.error "TypeError" ∧
    hello (some v) ts = ⟨500, internalErrorBody⟩ := by
  cases v with
  | null => simp [truthy] at htr
  | bool b =>
    cases b with
    | false => simp [truthy] at htr
    | true => exact ⟨rfl, rfl⟩
  | num n =>
    refine ⟨rfl, ?_⟩
    simp only [truthy] at htr
    simp [hello, truthy, htr, pyContains]
  | str s => simp [isContainer] at hnc
  | arr xs => simp [isContainer] at hnc
  | obj kvs => simp [isContainer] at hnc

/-- C9 witness: the JSON number 5. -/
theorem hello_truthy_scalar_500_witness :
    pyContains "name" (Json.num 5) = Except.error "TypeError" ∧
    hello (some (Json.num 5)) "2024-01-01 00:00:00 UTC" =
      ⟨500, internalErrorBody⟩ :=
  hello_truthy_scalar_500 (Json.num 5) "2024-01-01 00:00:00 UTC" rfl rfl

/-- C10: the iseven handler is defective: its except clause sits at a
different column than its try, which Python rejects as a SyntaxError,
so the module as written cannot load; and on the repaired reading the
success paths return the bare integers 200 and 400 rather than
response objects, the only response object possible being the 500
internal error. -/
theorem iseven_defective :
    isevenExceptIndent ≠ isevenTryIndent ∧
    ∀ body, (∀ r, iseven body = PyRet.resp r → r = ⟨500, internalErrorBody⟩) ∧
      (∀ n, iseven body = PyRet.intLit n → n = 200 ∨ n = 400) := by
  refine ⟨by decide, fun body => ?_⟩
  cases body with
  | none =>
    constructor
    · intro r h
      injection h with h'
      exact h'.symm
    · intro n h
      simp [iseven] at h
  | some data =>
    cases hsub : pySubscript "number" data with
    | error e =>
      constructor
      · intro r h
        simp [iseven, hsub] at h
        exact h.symm
      · intro n h
        simp [iseven, hsub] at h
    | ok v =>
      cases hchk : pyEvenCheck v with
      | error e =>
        constructor
        · intro r h
          simp [iseven, hsub, hchk] at h
          exact h.symm
        · intro n h
          simp [iseven, hsub, hchk] at h
      | ok b =>
        cases b with
        | true =>
          constructor
          · intro r h
            simp [iseven, hsub, hchk] at h
          · intro n h
            simp [iseven, hsub, hchk] at h
            exact Or.inl h.symm
        | false =>
          constructor
          · intro r h
            simp [iseven, hsub, hchk] at h
          · intro n h
            simp [iseven, hsub, hchk] at h
            exact Or.inr h.symm

/-- C10 witness: the body with number 4 returns the bare integer 200. -/
theorem iseven_defective_witness :
    iseven (some (Json.obj [("number", Json.num 4)])) = PyRet.intLit 200 ∧
    ((200 : Int) = 200 ∨ (200 : Int) = 400) :=
  ⟨rfl, (iseven_defective.2 (some (Json.obj [("number", Json.num 4)]))).2 200 rfl⟩

end PingPong
